import Mathlib

/-!
# Learning Progression & Assessment Engine — verification

Shallow embedding of the core progression/eligibility and grading logic of
the Social Engineering Awareness e-learning platform, translated from the
Python sources (`app.py`, `business_services/*.py`, `data_models/*.py`),
together with theorems settling the specification claims about it.

Modelling conventions:
* machine integers are `Nat`/`Int`; percentage arithmetic that Python does
  on floats is carried out exactly in `ℚ`;
* database rows are records in explicit lists; SQLAlchemy queries become
  `filter`/`find?`/fold operations over those lists;
* timestamps are integer epoch seconds, and the clock (`now`) is an
  explicit argument;
* fallible operations return `Option`.
-/

namespace SEAP

/-! ## Configuration constants

From `src/config.py` and
`src/business_services/module_manager_service.py`. -/

/-- Constant `Config.KNOWLEDGE_CHECK_PASSING_SCORE = 80` (src/config.py). -/
def KNOWLEDGE_CHECK_PASSING_SCORE : Nat := 80

/-- Constant `Config.FINAL_ASSESSMENT_PASSING_SCORE = 70` (src/config.py). -/
def FINAL_ASSESSMENT_PASSING_SCORE : Nat := 70

/-- Constant `ModuleManagerService.FINAL_ASSESSMENT_MAX_RETAKES = 3`. -/
def FINAL_ASSESSMENT_MAX_RETAKES : Int := 3

/-- Constant `ModuleManagerService.FINAL_ASSESSMENT_COOLDOWN_HOURS = 48`. -/
def FINAL_ASSESSMENT_COOLDOWN_HOURS : Int := 48

/-! ## Final-assessment retake policy

`ModuleManagerService._can_retake_final_assessment`
(src/business_services/module_manager_service.py).  The returned Python
dict is modelled as a record; keys that a branch does not set are the
record's neutral values (`cooldown_reset := false`,
`cooldown_remaining_hours := none`).  A `last_attempt_time` that is absent
or unparsable (the `except` branch of the Python) is `none`. -/

structure RetakeDecision where
  can_retake : Bool
  reason : String
  attempts_remaining : Int
  cooldown_reset : Bool
  cooldown_remaining_hours : Option ℚ
  deriving Repr, DecidableEq

/-- Embeds `_can_retake_final_assessment(current_attempts, last_attempt_time)`,
with the wall clock `now` passed explicitly (Python reads
`datetime.now()`); timestamps are epoch seconds. -/
def can_retake_final_assessment (current_attempts : Int)
    (last_attempt_time : Option Int) (now : Int) : RetakeDecision :=
  if current_attempts < FINAL_ASSESSMENT_MAX_RETAKES then
    { can_retake := true
      reason := "Attempt " ++ toString (current_attempts + 1) ++ " of " ++
        toString FINAL_ASSESSMENT_MAX_RETAKES
      attempts_remaining := FINAL_ASSESSMENT_MAX_RETAKES - current_attempts
      cooldown_reset := false
      cooldown_remaining_hours := none }
  else
    match last_attempt_time with
    | some last_attempt =>
      let time_diff_seconds : Int := now - last_attempt
      if FINAL_ASSESSMENT_COOLDOWN_HOURS * 3600 ≤ time_diff_seconds then
        { can_retake := true
          reason := "48-hour cooldown period completed"
          attempts_remaining := FINAL_ASSESSMENT_MAX_RETAKES
          cooldown_reset := true
          cooldown_remaining_hours := none }
      else
        { can_retake := false
          reason := "48-hour cooldown period active"
          attempts_remaining := 0
          cooldown_reset := false
          cooldown_remaining_hours :=
            some ((FINAL_ASSESSMENT_COOLDOWN_HOURS : ℚ) -
              (time_diff_seconds : ℚ) / 3600) }
    | none =>
      { can_retake := false
        reason := "Maximum attempts reached. Wait 48 hours to retry."
        attempts_remaining := 0
        cooldown_reset := false
        cooldown_remaining_hours := none }

/-- Claim C1: the final-assessment retake policy.  With fewer than 3 recorded
attempts the retake is always allowed and `attempts_remaining =
3 - current_attempt_count`.  With 3 or more attempts and a last-attempt
timestamp, the decision is `can_retake = true` with `attempts_remaining = 3`
and `cooldown_reset = true` exactly when at least 48 hours have elapsed,
and otherwise `can_retake = false` with `cooldown_remaining_hours =
48 - elapsed_hours` (elapsed hours fractional, in `ℚ`).  With 3 or more
attempts and no timestamp the policy fails closed. -/
theorem can_retake_final_assessment_spec (current_attempts : Int)
    (last_attempt_time : Option Int) (now : Int) :
    (current_attempts < 3 →
      (can_retake_final_assessment current_attempts last_attempt_time now).can_retake = true ∧
      (can_retake_final_assessment current_attempts last_attempt_time now).attempts_remaining =
        3 - current_attempts) ∧
    (3 ≤ current_attempts → ∀ t, last_attempt_time = some t →
      (((can_retake_final_assessment current_attempts last_attempt_time now).can_retake = true ∧
        (can_retake_final_assessment current_attempts last_attempt_time now).attempts_remaining = 3 ∧
        (can_retake_final_assessment current_attempts last_attempt_time now).cooldown_reset = true) ↔
          48 * 3600 ≤ now - t) ∧
      (now - t < 48 * 3600 →
        (can_retake_final_assessment current_attempts last_attempt_time now).can_retake = false ∧
        (can_retake_final_assessment current_attempts last_attempt_time now).cooldown_remaining_hours =
          some (48 - ((now - t : Int) : ℚ) / 3600))) ∧
    (3 ≤ current_attempts → last_attempt_time = none →
      (can_retake_final_assessment current_attempts last_attempt_time now).can_retake = false) := by
  unfold can_retake_final_assessment FINAL_ASSESSMENT_MAX_RETAKES FINAL_ASSESSMENT_COOLDOWN_HOURS
  refine ⟨fun hlt => ?_, fun hge t hsome => ?_, fun hge hnone => ?_⟩
  · simp [if_pos hlt]
  · subst hsome
    have hnotlt : ¬ current_attempts < 3 := not_lt.mpr hge
    by_cases hcool : (48 : Int) * 3600 ≤ now - t
    · constructor
      · simp only [if_neg hnotlt, if_pos hcool]
        exact iff_of_true (by norm_num) (by omega)
      · intro hlt
        exact absurd hcool (not_le.mpr hlt)
    · constructor
      · simp only [if_neg hnotlt, if_neg hcool]
        exact iff_of_false (fun h => absurd h.1 (by decide)) (by omega)
      · intro _
        simp only [if_neg hnotlt, if_neg hcool]
        norm_num
  · subst hnone
    have hnotlt : ¬ current_attempts < 3 := not_lt.mpr hge
    simp [if_neg hnotlt]

/-- Witness for C1, exercising all three branches of the policy at
concrete inputs (the P6 probe values from the specification). -/
theorem can_retake_final_assessment_spec_witness :
    ((can_retake_final_assessment 2 none 0).can_retake = true ∧
      (can_retake_final_assessment 2 none 0).attempts_remaining = 1) ∧
    ((can_retake_final_assessment 3 (some 0) (47 * 3600)).can_retake = false ∧
      (can_retake_final_assessment 3 (some 0) (47 * 3600)).cooldown_remaining_hours = some 1) ∧
    ((can_retake_final_assessment 3 (some 0) (50 * 3600)).can_retake = true ∧
      (can_retake_final_assessment 3 (some 0) (50 * 3600)).attempts_remaining = 3 ∧
      (can_retake_final_assessment 3 (some 0) (50 * 3600)).cooldown_reset = true) ∧
    (can_retake_final_assessment 3 none 0).can_retake = false := by
  refine ⟨?_, ⟨?_, ?_⟩, ?_, ?_⟩
  · exact (can_retake_final_assessment_spec 2 none 0).1 (by norm_num)
  · exact ((((can_retake_final_assessment_spec 3 (some 0) (47 * 3600)).2.1 (by norm_num) 0
      rfl).2 (by norm_num))).1
  · have h := (((can_retake_final_assessment_spec 3 (some 0) (47 * 3600)).2.1 (by norm_num) 0
      rfl).2 (by norm_num)).2
    rw [h]
    norm_num
  · exact ((can_retake_final_assessment_spec 3 (some 0) (50 * 3600)).2.1 (by norm_num) 0
      rfl).1.mpr (by norm_num)
  · exact (can_retake_final_assessment_spec 3 none 0).2.2 (by norm_num) rfl

/-! ## Certificate eligibility gate

`ModuleManagerService.can_generate_certificate`
(src/business_services/module_manager_service.py). -/

structure CertificateDecision where
  can_generate : Bool
  reason : String
  requirements_met : Bool
  missing_requirement : Option String
  deriving Repr, DecidableEq

/-- Embeds `can_generate_certificate(user_id, final_assessment_passed, survey_completed)`:
deny while the final assessment is not passed, then deny while the
satisfaction survey is not completed, else allow. -/
def can_generate_certificate (user_id : Nat) (final_assessment_passed : Bool)
    (survey_completed : Bool) : CertificateDecision :=
  if !final_assessment_passed then
    { can_generate := false
      reason := "Final assessment not passed"
      requirements_met := false
      missing_requirement := none }
  else if !survey_completed then
    { can_generate := false
      reason := "Satisfaction survey not completed"
      requirements_met := false
      missing_requirement := some "survey" }
  else
    { can_generate := true
      reason := "All requirements met"
      requirements_met := true
      missing_requirement := none }

/-- Claim C7 counterexample: the gate's literal denial reasons are
`"Final assessment not passed"` and `"Satisfaction survey not completed"`,
not the strings `"final assessment not passed"` and
`"survey not completed"` asserted by the claim. -/
theorem can_generate_certificate_reason_counterexample :
    (can_generate_certificate 1 true false).can_generate = false ∧
    (can_generate_certificate 1 true false).reason ≠ "survey not completed" ∧
    (can_generate_certificate 1 false true).can_generate = false ∧
    (can_generate_certificate 1 false true).reason ≠ "final assessment not passed" := by
  refine ⟨rfl, ?_, rfl, ?_⟩ <;> decide

/-- Claim C7 (amended): the certificate gate denies with reason
`"Final assessment not passed"` whenever the final assessment is not
passed, denies with reason `"Satisfaction survey not completed"` and
`missing_requirement = "survey"` when the final assessment is passed but
the survey is not completed, and allows when both hold; every denial
carries a nonempty human-readable reason alongside the boolean. -/
theorem can_generate_certificate_spec (user_id : Nat)
    (final_assessment_passed survey_completed : Bool) :
    (final_assessment_passed = false →
      (can_generate_certificate user_id final_assessment_passed survey_completed).can_generate = false ∧
      (can_generate_certificate user_id final_assessment_passed survey_completed).reason =
        "Final assessment not passed") ∧
    (final_assessment_passed = true → survey_completed = false →
      (can_generate_certificate user_id final_assessment_passed survey_completed).can_generate = false ∧
      (can_generate_certificate user_id final_assessment_passed survey_completed).reason =
        "Satisfaction survey not completed" ∧
      (can_generate_certificate user_id final_assessment_passed survey_completed).missing_requirement =
        some "survey") ∧
    (final_assessment_passed = true → survey_completed = true →
      (can_generate_certificate user_id final_assessment_passed survey_completed).can_generate = true) ∧
    ((can_generate_certificate user_id final_assessment_passed survey_completed).can_generate = false →
      (can_generate_certificate user_id final_assessment_passed survey_completed).reason ≠ "") := by
  cases final_assessment_passed <;> cases survey_completed <;>
    simp [can_generate_certificate]

/-- Witness for C7 (amended), evaluating the gate on all three decisive
input combinations. -/
theorem can_generate_certificate_spec_witness :
    ((can_generate_certificate 1 false true).can_generate = false ∧
      (can_generate_certificate 1 false true).reason = "Final assessment not passed") ∧
    ((can_generate_certificate 1 true false).can_generate = false ∧
      (can_generate_certificate 1 true false).reason = "Satisfaction survey not completed" ∧
      (can_generate_certificate 1 true false).missing_requirement = some "survey") ∧
    (can_generate_certificate 1 true true).can_generate = true :=
  ⟨(can_generate_certificate_spec 1 false true).1 rfl,
   (can_generate_certificate_spec 1 true false).2.1 rfl rfl,
   (can_generate_certificate_spec 1 true true).2.2.1 rfl rfl⟩

/-! ## Case-insensitive answer comparison

Python's `str.lower()` on the answer letters corresponds to
`String.toLower`; the following lemmas record that lowering is
idempotent, which is needed because the grading code lowers the submitted
answer twice (once in `grade_assessment`, once in `check_answer`). -/

theorem toNat_ofNat_of_isValidChar {n : Nat} (h : n.isValidChar) :
    (Char.ofNat n).toNat = n := by
  rw [Char.ofNat, dif_pos h]
  rfl

theorem char_toLower_toLower (c : Char) : c.toLower.toLower = c.toLower := by
  unfold Char.toLower
  by_cases h : c.toNat ≥ 65 ∧ c.toNat ≤ 90
  · rw [if_pos h]
    have hv : (c.toNat + 32).isValidChar := Or.inl (by omega)
    rw [toNat_ofNat_of_isValidChar hv]
    rw [if_neg (by omega)]
  · rw [if_neg h, if_neg h]

theorem string_toLower_data (s : String) : s.toLower = ⟨s.data.map Char.toLower⟩ :=
  String.map_eq Char.toLower s

/-- Python's `str.lower()` on the (ASCII) answer letters: per-character
lowering of the string's characters.  Provably equal to Lean's
`String.toLower` (`str_lower_eq_toLower`); stated this way so that it is
kernel-computable. -/
def str_lower (s : String) : String :=
  ⟨s.data.map Char.toLower⟩

theorem str_lower_eq_toLower (s : String) : str_lower s = s.toLower :=
  (string_toLower_data s).symm

theorem str_lower_str_lower (s : String) : str_lower (str_lower s) = str_lower s := by
  unfold str_lower
  exact congrArg String.mk
    (by rw [List.map_map]; exact List.map_congr_left fun c _ => char_toLower_toLower c)

/-! ## Question model and grading primitive

`QuestionBase` (src/data_models/content_models.py) and
`AssessmentService.grade_assessment`
(src/business_services/assessment_service.py).  The submitted-answers dict
`Dict[str, str]` is an association list keyed by the stringified question
id. -/

structure Question where
  id : Nat
  question_text : String
  correct_answer : String
  explanation : String
  deriving Repr, DecidableEq

/-- Embeds `QuestionBase.check_answer`: `user_answer.lower() == self.correct_answer.lower()`. -/
def check_answer (q : Question) (user_answer : String) : Bool :=
  str_lower user_answer == str_lower q.correct_answer

/-- One entry of `grade_assessment`'s `detailed_results` list. -/
structure DetailedResult where
  question_id : Nat
  question_text : String
  user_answer : String
  correct_answer : String
  is_correct : Bool
  explanation : String
  deriving Repr, DecidableEq

/-- Result tuple of `grade_assessment`:
`(score, total_questions, percentage, detailed_results)`. -/
structure GradeResult where
  score : Nat
  total_questions : Nat
  percentage : ℚ
  detailed_results : List DetailedResult
  deriving Repr, DecidableEq

/-- The `for question in questions` loop of `grade_assessment`,
accumulating the correct-answer count and the detailed results in order.
`user_answers.get(question_id, \'\')` is `(lookup …).getD ""`, and the
fetched answer is lowered before `check_answer` sees it. -/
def grade_loop : List Question → List (String × String) → Nat × List DetailedResult
  | [], _ => (0, [])
  | question :: rest, user_answers =>
    let user_answer := str_lower ((user_answers.lookup (toString question.id)).getD "")
    let is_correct := check_answer question user_answer
    let tail := grade_loop rest user_answers
    ((if is_correct then 1 else 0) + tail.1,
      { question_id := question.id
        question_text := question.question_text
        user_answer := user_answer
        correct_answer := question.correct_answer
        is_correct := is_correct
        explanation := question.explanation } :: tail.2)

/-- Embeds `AssessmentService.grade_assessment(questions, user_answers)`.  The
percentage is `(correct_answers / total_questions) * 100` when
`total_questions > 0` and `0` otherwise, computed exactly in `ℚ`. -/
def grade_assessment (questions : List Question)
    (user_answers : List (String × String)) : GradeResult :=
  let total_questions := questions.length
  let graded := grade_loop questions user_answers
  { score := graded.1
    total_questions := total_questions
    percentage :=
      if 0 < total_questions then
        ((graded.1 : ℚ) / (total_questions : ℚ)) * 100
      else 0
    detailed_results := graded.2 }

/-- The predicate of the claim: the submitted answer for the question
matches the question's correct option case-insensitively (a missing
answer never matches). -/
def answer_matches (user_answers : List (String × String)) (q : Question) : Bool :=
  match user_answers.lookup (toString q.id) with
  | some a => str_lower a == str_lower q.correct_answer
  | none => false

theorem grade_loop_score_eq_countP (questions : List Question)
    (user_answers : List (String × String))
    (hvalid : ∀ q ∈ questions, q.correct_answer ∈ (["a", "b", "c", "d"] : List String)) :
    (grade_loop questions user_answers).1 = questions.countP (answer_matches user_answers) := by
  induction questions with
  | nil => rfl
  | cons q rest ih =>
    have hq := hvalid q (List.mem_cons_self q rest)
    have hrest : ∀ p ∈ rest, p.correct_answer ∈ (["a", "b", "c", "d"] : List String) :=
      fun p hp => hvalid p (List.mem_cons_of_mem q hp)
    simp only [List.mem_cons, List.not_mem_nil, or_false] at hq
    have hlow : str_lower q.correct_answer = q.correct_answer := by
      rcases hq with h | h | h | h <;> rw [h] <;> decide
    have hne : q.correct_answer ≠ "" := by
      rcases hq with h | h | h | h <;> rw [h] <;> decide
    have hhead : check_answer q (str_lower ((user_answers.lookup (toString q.id)).getD "")) =
        answer_matches user_answers q := by
      unfold check_answer answer_matches
      cases hl : user_answers.lookup (toString q.id) with
      | none =>
        simp only [Option.getD_none]
        have e0 : str_lower (str_lower "") = "" := by decide
        rw [e0, hlow]
        exact beq_eq_false_iff_ne.mpr (Ne.symm hne)
      | some a =>
        simp only [Option.getD_some]
        rw [str_lower_str_lower]
    simp only [grade_loop, List.countP_cons, hhead, ih hrest]
    cases hm : answer_matches user_answers q <;> simp [hm, Nat.add_comm]

/-- Claim C5: the grading function's correct count equals the number of
questions whose submitted answer matches that question's correct option
case-insensitively; a question with a missing answer, or one whose
lowered answer is not in {a,b,c,d}, never matches and so counts as
incorrect (the loop is total — no error is possible).  The hypothesis is
the `QuestionBase.__init__` validation invariant: every stored correct
option is one of "a", "b", "c", "d". -/
theorem grade_assessment_correct_count (questions : List Question)
    (user_answers : List (String × String))
    (hvalid : ∀ q ∈ questions, q.correct_answer ∈ (["a", "b", "c", "d"] : List String)) :
    (grade_assessment questions user_answers).score =
      questions.countP (answer_matches user_answers) ∧
    (∀ q ∈ questions, ∀ a, user_answers.lookup (toString q.id) = some a →
      str_lower a ∉ (["a", "b", "c", "d"] : List String) →
      answer_matches user_answers q = false) ∧
    (∀ q ∈ questions, user_answers.lookup (toString q.id) = none →
      answer_matches user_answers q = false) := by
  refine ⟨grade_loop_score_eq_countP questions user_answers hvalid, ?_, ?_⟩
  · intro q hq a hl hna
    have hq4 := hvalid q hq
    simp only [List.mem_cons, List.not_mem_nil, or_false] at hq4
    have hlow : str_lower q.correct_answer = q.correct_answer := by
      rcases hq4 with h | h | h | h <;> rw [h] <;> decide
    unfold answer_matches
    rw [hl, hlow]
    refine beq_eq_false_iff_ne.mpr fun hcontra => hna ?_
    rw [hcontra]
    rcases hq4 with h | h | h | h <;> rw [h] <;> decide
  · intro q hq hl
    unfold answer_matches
    rw [hl]

/-- Witness for C5 on a concrete three-question bank: question 1 answered
"A" (matches "a" case-insensitively), question 2 answered "x" (invalid
letter, incorrect), question 3 unanswered (incorrect); the count is 1. -/
theorem grade_assessment_correct_count_witness :
    (grade_assessment
        [⟨1, "q1", "a", "e1"⟩, ⟨2, "q2", "b", "e2"⟩, ⟨3, "q3", "c", "e3"⟩]
        [("1", "A"), ("2", "x")]).score =
      List.countP (answer_matches [("1", "A"), ("2", "x")])
        [⟨1, "q1", "a", "e1"⟩, ⟨2, "q2", "b", "e2"⟩, ⟨3, "q3", "c", "e3"⟩] ∧
    List.countP (answer_matches [("1", "A"), ("2", "x")])
        [⟨1, "q1", "a", "e1"⟩, ⟨2, "q2", "b", "e2"⟩, ⟨3, "q3", "c", "e3"⟩] = 1 :=
  ⟨(grade_assessment_correct_count
      [⟨1, "q1", "a", "e1"⟩, ⟨2, "q2", "b", "e2"⟩, ⟨3, "q3", "c", "e3"⟩]
      [("1", "A"), ("2", "x")] (by decide)).1,
    by decide⟩

/-! ## Percentage as computed by the HTTP submit routes

`submit_assessment` and `submit_final_assessment` in src/app.py compute
`percentage = int((correct_answers / total_questions) * 100) if
total_questions and total_questions > 0 else 0` and compare it against
the configured threshold.  Python evaluates the division in IEEE-754
double precision and `int(…)` truncates; on the exact rationals this is
the floor `100 * correct / total`. -/

def route_percentage (correct_answers total_questions : Nat) : Nat :=
  if 0 < total_questions then 100 * correct_answers / total_questions else 0

/-- Embeds `passed = percentage >= KNOWLEDGE_CHECK_PASSING_SCORE` (80) in
`submit_assessment` (src/app.py). -/
def submit_assessment_passed (percentage : Nat) : Bool :=
  KNOWLEDGE_CHECK_PASSING_SCORE ≤ percentage

/-- Embeds `passed = percentage >= FINAL_ASSESSMENT_PASSING_SCORE` (70) in
`submit_final_assessment` (src/app.py). -/
def submit_final_assessment_passed (percentage : Nat) : Bool :=
  FINAL_ASSESSMENT_PASSING_SCORE ≤ percentage

/-- Claim C4 counterexample: with 2 of 3 questions correct the claim's
`round(100 * correct / total)` is `67`, but `grade_assessment` returns
the unrounded percentage `200/3` (≈ 66.67) and the submit routes
truncate to `66`; neither equals `67`. -/
theorem grade_percentage_not_rounded_counterexample :
    round ((100 * 2 : ℚ) / 3) = 67 ∧
    (grade_assessment
        [⟨1, "q1", "a", "e1"⟩, ⟨2, "q2", "b", "e2"⟩, ⟨3, "q3", "c", "e3"⟩]
        [("1", "a"), ("2", "b")]).score = 2 ∧
    (grade_assessment
        [⟨1, "q1", "a", "e1"⟩, ⟨2, "q2", "b", "e2"⟩, ⟨3, "q3", "c", "e3"⟩]
        [("1", "a"), ("2", "b")]).percentage = 200 / 3 ∧
    (grade_assessment
        [⟨1, "q1", "a", "e1"⟩, ⟨2, "q2", "b", "e2"⟩, ⟨3, "q3", "c", "e3"⟩]
        [("1", "a"), ("2", "b")]).percentage ≠ ((67 : ℚ)) ∧
    route_percentage 2 3 = 66 := by
  refine ⟨?_, by decide, ?_, ?_, by decide⟩
  · rw [round_eq]
    norm_num
  · have h2 : (grade_assessment
        [⟨1, "q1", "a", "e1"⟩, ⟨2, "q2", "b", "e2"⟩, ⟨3, "q3", "c", "e3"⟩]
        [("1", "a"), ("2", "b")]).score = 2 := by decide
    show (if 0 < (3 : Nat) then (((grade_loop
        [⟨1, "q1", "a", "e1"⟩, ⟨2, "q2", "b", "e2"⟩, ⟨3, "q3", "c", "e3"⟩]
        [("1", "a"), ("2", "b")]).1 : ℚ) / (3 : ℚ)) * 100 else 0) = 200 / 3
    rw [show (grade_loop
        [⟨1, "q1", "a", "e1"⟩, ⟨2, "q2", "b", "e2"⟩, ⟨3, "q3", "c", "e3"⟩]
        [("1", "a"), ("2", "b")]).1 = 2 from h2]
    norm_num
  · have h3 : (grade_assessment
        [⟨1, "q1", "a", "e1"⟩, ⟨2, "q2", "b", "e2"⟩, ⟨3, "q3", "c", "e3"⟩]
        [("1", "a"), ("2", "b")]).score = 2 := by decide
    show ¬ (if 0 < (3 : Nat) then (((grade_loop
        [⟨1, "q1", "a", "e1"⟩, ⟨2, "q2", "b", "e2"⟩, ⟨3, "q3", "c", "e3"⟩]
        [("1", "a"), ("2", "b")]).1 : ℚ) / (3 : ℚ)) * 100 else 0) = 67
    rw [show (grade_loop
        [⟨1, "q1", "a", "e1"⟩, ⟨2, "q2", "b", "e2"⟩, ⟨3, "q3", "c", "e3"⟩]
        [("1", "a"), ("2", "b")]).1 = 2 from h3]
    norm_num

/-- Claim C4 (amended): `grade_assessment` returns the exact unrounded
percentage `100 * correct_count / total` (as a rational), the submit
routes truncate it to an integer — floor, not round — and when
`total = 0` the percentage is `0` and both pass gates report `false`,
with no division-by-zero error (the guard returns `0` instead of
dividing). -/
theorem grade_assessment_percentage_spec (questions : List Question)
    (user_answers : List (String × String)) :
    (grade_assessment questions user_answers).total_questions = questions.length ∧
    (0 < questions.length →
      (grade_assessment questions user_answers).percentage =
        100 * ((grade_assessment questions user_answers).score : ℚ) / questions.length) ∧
    route_percentage (grade_assessment questions user_answers).score
        (grade_assessment questions user_answers).total_questions =
      Nat.floor (grade_assessment questions user_answers).percentage ∧
    (questions = [] →
      (grade_assessment questions user_answers).percentage = 0 ∧
      (grade_assessment questions user_answers).score = 0 ∧
      submit_assessment_passed (route_percentage 0 0) = false ∧
      submit_final_assessment_passed (route_percentage 0 0) = false) := by
  refine ⟨rfl, fun hpos => ?_, ?_, fun hnil => ?_⟩
  · show (if 0 < questions.length then
        (((grade_loop questions user_answers).1 : ℚ) / (questions.length : ℚ)) * 100 else 0) =
      100 * ((grade_loop questions user_answers).1 : ℚ) / questions.length
    rw [if_pos hpos]
    ring
  · by_cases hpos : 0 < questions.length
    · show (if 0 < questions.length then
          100 * (grade_loop questions user_answers).1 / questions.length else 0) =
        Nat.floor (if 0 < questions.length then
          (((grade_loop questions user_answers).1 : ℚ) / (questions.length : ℚ)) * 100 else 0)
      rw [if_pos hpos, if_pos hpos]
      rw [div_mul_eq_mul_div, mul_comm ((grade_loop questions user_answers).1 : ℚ) 100]
      rw [show ((100 : ℚ) * (grade_loop questions user_answers).1) =
        (((100 * (grade_loop questions user_answers).1 : ℕ) : ℚ)) from by push_cast; ring]
      rw [Nat.floor_div_nat, Nat.floor_natCast]
    · show (if 0 < questions.length then
          100 * (grade_loop questions user_answers).1 / questions.length else 0) =
        Nat.floor (if 0 < questions.length then
          (((grade_loop questions user_answers).1 : ℚ) / (questions.length : ℚ)) * 100 else 0)
      rw [if_neg hpos, if_neg hpos]
      simp
  · subst hnil
    exact ⟨rfl, rfl, by decide, by decide⟩

/-- Witness for C4 (amended): the empty grade is safe (`percentage = 0`,
both gates deny), and a fully correct one-question grade evaluates to
exactly 100. -/
theorem grade_assessment_percentage_spec_witness :
    (grade_assessment [] []).percentage = 0 ∧
    (grade_assessment [] []).score = 0 ∧
    submit_assessment_passed (route_percentage 0 0) = false ∧
    submit_final_assessment_passed (route_percentage 0 0) = false ∧
    (grade_assessment [⟨1, "q1", "a", "e1"⟩] [("1", "a")]).percentage = 100 := by
  have h4 := (grade_assessment_percentage_spec ([] : List Question) []).2.2.2 rfl
  refine ⟨h4.1, h4.2.1, h4.2.2.1, h4.2.2.2, ?_⟩
  have h5 := (grade_assessment_percentage_spec [⟨1, "q1", "a", "e1"⟩] [("1", "a")]).2.1
    (by decide)
  rw [h5, show (grade_assessment [⟨1, "q1", "a", "e1"⟩] [("1", "a")]).score = 1 from by decide]
  norm_num

/-! ## Question pool sampler

`KnowledgeCheckQuestion.get_random_by_module`
(src/data_models/content_models.py): fetch the bank for the module and
set, return it whole when it has at most `count` questions, otherwise
`random.sample(questions, count)`.  `random.sample` draws `count`
distinct elements uniformly without replacement; it is modelled as
taking the first `count` elements of `shuffled`, an arbitrary
permutation of the bank passed as a parameter — every theorem below
holds for every such permutation, i.e. for every possible random draw. -/

def get_random_by_module (questions : List Question) (count : Nat)
    (shuffled : List Question) : List Question :=
  if questions.length ≤ count then questions
  else shuffled.take count

/-- The inline sampler of the `assessment` route (src/app.py, lines
1177-1183): `if len(all_questions) > desired_count and desired_count > 0:
random.sample(all_questions, desired_count)` — otherwise the **full**
bank, shuffled.  Both branches are modelled through the same permutation
parameter: the sample branch takes the first `desired_count` elements of
`shuffled`, the else branch returns `shuffled` whole. -/
def assessment_route_sample (all_questions : List Question) (desired_count : Nat)
    (shuffled : List Question) : List Question :=
  if desired_count < all_questions.length ∧ 0 < desired_count then
    shuffled.take desired_count
  else shuffled

/-- Claim C8 counterexample: the claim's bound fails on its second cited
source.  At `desired_count = 0` on a three-question bank, the
`assessment` route's `desired_count > 0` guard sends execution to the
else branch, which returns the full shuffled bank — 3 questions, not
`min 3 0 = 0`. -/
theorem assessment_route_sample_counterexample :
    (assessment_route_sample
        [⟨1, "q1", "a", "e1"⟩, ⟨2, "q2", "b", "e2"⟩, ⟨3, "q3", "c", "e3"⟩] 0
        [⟨3, "q3", "c", "e3"⟩, ⟨1, "q1", "a", "e1"⟩, ⟨2, "q2", "b", "e2"⟩]).length = 3 ∧
    min ([⟨1, "q1", "a", "e1"⟩, ⟨2, "q2", "b", "e2"⟩,
        ⟨3, "q3", "c", "e3"⟩] : List Question).length 0 = 0 := by
  constructor <;> decide

/-- Claim C8 (amended): `KnowledgeCheckQuestion.get_random_by_module`
returns exactly `min (len bank) k` questions for every `k ≥ 0` — the
full bank when `len bank ≤ k`, and otherwise `k` questions drawn from
the bank without replacement (a sub-multiset of the bank, with no
duplicates whenever the bank has none); the `assessment` route's inline
sampler obeys the same `min` bound only for `k ≥ 1`, and at `k = 0`
returns the full shuffled bank instead of 0 questions. -/
theorem sampler_bound_spec (questions : List Question) (count : Nat)
    (shuffled : List Question) (hperm : shuffled.Perm questions) :
    (get_random_by_module questions count shuffled).length = min questions.length count ∧
    (questions.length ≤ count → get_random_by_module questions count shuffled = questions) ∧
    (∀ q ∈ get_random_by_module questions count shuffled, q ∈ questions) ∧
    (questions.Nodup → (get_random_by_module questions count shuffled).Nodup) ∧
    (0 < count →
      (assessment_route_sample questions count shuffled).length = min questions.length count) ∧
    (count = 0 →
      (assessment_route_sample questions count shuffled).length = questions.length) := by
  have hlen : shuffled.length = questions.length := hperm.length_eq
  refine ⟨?_, ?_, ?_, ?_, ?_, ?_⟩
  · unfold get_random_by_module
    by_cases hle : questions.length ≤ count
    · rw [if_pos hle]
      exact (Nat.min_eq_left hle).symm
    · rw [if_neg hle]
      rw [List.length_take, hlen]
      omega
  · intro hle
    unfold get_random_by_module
    rw [if_pos hle]
  · intro q hq
    unfold get_random_by_module at hq
    by_cases hle : questions.length ≤ count
    · rw [if_pos hle] at hq
      exact hq
    · rw [if_neg hle] at hq
      exact hperm.mem_iff.mp (List.mem_of_mem_take hq)
  · intro hnd
    unfold get_random_by_module
    by_cases hle : questions.length ≤ count
    · rw [if_pos hle]
      exact hnd
    · rw [if_neg hle]
      exact (hperm.nodup_iff.mpr hnd).sublist (List.take_sublist count shuffled)
  · intro hpos
    unfold assessment_route_sample
    by_cases hlt : count < questions.length
    · rw [if_pos ⟨hlt, hpos⟩]
      rw [List.length_take, hlen]
      omega
    · rw [if_neg (fun h => hlt h.1)]
      rw [hlen]
      omega
  · intro h0
    subst h0
    unfold assessment_route_sample
    rw [if_neg (fun h => absurd h.2 (by omega))]
    exact hlen

/-- Witness for C8 (amended): a three-question bank through a concrete
permutation — `get_random_by_module` yields exactly 2 distinct bank
questions at `count = 2` and the full bank at `count = 5`; the route
sampler yields 2 questions at `count = 2` but all 3 at `count = 0`. -/
theorem sampler_bound_spec_witness :
    (get_random_by_module
        [⟨1, "q1", "a", "e1"⟩, ⟨2, "q2", "b", "e2"⟩, ⟨3, "q3", "c", "e3"⟩] 2
        [⟨3, "q3", "c", "e3"⟩, ⟨1, "q1", "a", "e1"⟩, ⟨2, "q2", "b", "e2"⟩]).length = 2 ∧
    get_random_by_module
        [⟨1, "q1", "a", "e1"⟩, ⟨2, "q2", "b", "e2"⟩, ⟨3, "q3", "c", "e3"⟩] 5
        [⟨3, "q3", "c", "e3"⟩, ⟨1, "q1", "a", "e1"⟩, ⟨2, "q2", "b", "e2"⟩] =
      [⟨1, "q1", "a", "e1"⟩, ⟨2, "q2", "b", "e2"⟩, ⟨3, "q3", "c", "e3"⟩] ∧
    (assessment_route_sample
        [⟨1, "q1", "a", "e1"⟩, ⟨2, "q2", "b", "e2"⟩, ⟨3, "q3", "c", "e3"⟩] 2
        [⟨3, "q3", "c", "e3"⟩, ⟨1, "q1", "a", "e1"⟩, ⟨2, "q2", "b", "e2"⟩]).length = 2 ∧
    (assessment_route_sample
        [⟨1, "q1", "a", "e1"⟩, ⟨2, "q2", "b", "e2"⟩, ⟨3, "q3", "c", "e3"⟩] 0
        [⟨3, "q3", "c", "e3"⟩, ⟨1, "q1", "a", "e1"⟩, ⟨2, "q2", "b", "e2"⟩]).length = 3 := by
  refine ⟨?_, ?_, ?_, ?_⟩
  · rw [(sampler_bound_spec
      [⟨1, "q1", "a", "e1"⟩, ⟨2, "q2", "b", "e2"⟩, ⟨3, "q3", "c", "e3"⟩] 2
      [⟨3, "q3", "c", "e3"⟩, ⟨1, "q1", "a", "e1"⟩, ⟨2, "q2", "b", "e2"⟩] (by decide)).1]
    decide
  · exact (sampler_bound_spec
      [⟨1, "q1", "a", "e1"⟩, ⟨2, "q2", "b", "e2"⟩, ⟨3, "q3", "c", "e3"⟩] 5
      [⟨3, "q3", "c", "e3"⟩, ⟨1, "q1", "a", "e1"⟩, ⟨2, "q2", "b", "e2"⟩] (by decide)).2.1
      (by decide)
  · rw [(sampler_bound_spec
      [⟨1, "q1", "a", "e1"⟩, ⟨2, "q2", "b", "e2"⟩, ⟨3, "q3", "c", "e3"⟩] 2
      [⟨3, "q3", "c", "e3"⟩, ⟨1, "q1", "a", "e1"⟩, ⟨2, "q2", "b", "e2"⟩]
      (by decide)).2.2.2.2.1 (by decide)]
    decide
  · rw [(sampler_bound_spec
      [⟨1, "q1", "a", "e1"⟩, ⟨2, "q2", "b", "e2"⟩, ⟨3, "q3", "c", "e3"⟩] 0
      [⟨3, "q3", "c", "e3"⟩, ⟨1, "q1", "a", "e1"⟩, ⟨2, "q2", "b", "e2"⟩]
      (by decide)).2.2.2.2.2 rfl]
    decide

/-! ## Data model rows and the database state

`Module` (src/data_models/content_models.py), `AssessmentResult` and
`SimulationResult` (src/data_models/progress_models.py).  Only the
columns the core logic reads are modelled; `created_at` is epoch
seconds. -/

structure Module where
  id : Nat
  order : Nat
  has_simulation : Bool
  deriving Repr, DecidableEq

structure AssessmentResult where
  user_id : Nat
  assessment_type : String
  module_id : Option Nat
  score : Nat
  total_questions : Nat
  correct_answers : Nat
  passed : Bool
  created_at : Nat
  deriving Repr, DecidableEq

structure SimulationResult where
  user_id : Nat
  module_id : Option Nat
  simulation_type : String
  score : Nat
  completed : Bool
  deriving Repr, DecidableEq

structure Database where
  modules : List Module
  assessment_results : List AssessmentResult
  simulation_results : List SimulationResult
  deriving Repr, DecidableEq

/-- Embeds `Module.get_by_id` (`cls.query.get(id)`). -/
def get_by_id (db : Database) (module_id : Nat) : Option Module :=
  db.modules.find? (fun m => m.id == module_id)

/-- Embeds `.order_by(AssessmentResult.created_at.desc()).first()`: the row with
the greatest `created_at` (ties keep the earlier row — SQL leaves the
tie order unspecified). -/
def first_by_created_at_desc (results : List AssessmentResult) : Option AssessmentResult :=
  results.foldl
    (fun acc r =>
      match acc with
      | none => some r
      | some best => if best.created_at < r.created_at then some r else some best)
    none

/-- The knowledge-check rows `UserService.is_module_fully_completed`
filters on: `filter_by(user_id=…, module_id=…, assessment_type='knowledge_check')`. -/
def knowledge_check_results (db : Database) (user_id module_id : Nat) : List AssessmentResult :=
  db.assessment_results.filter (fun r =>
    r.user_id == user_id && r.module_id == some module_id &&
      r.assessment_type == "knowledge_check")

/-- The `knowledge_check_percentage` local of
`UserService.is_module_fully_completed`: `score / total_questions * 100`
when the total is positive, `0` otherwise.  Note it reads the stored
`score` column, not `correct_answers`. -/
def score_percentage (r : AssessmentResult) : ℚ :=
  if 0 < r.total_questions then ((r.score : ℚ) / (r.total_questions : ℚ)) * 100 else 0

/-- The percentage the claim describes: recomputed from the stored
correct-answer count (`correct / total * 100`, `0` on a zero total). -/
def correct_answers_percentage (r : AssessmentResult) : ℚ :=
  if 0 < r.total_questions then
    ((r.correct_answers : ℚ) / (r.total_questions : ℚ)) * 100
  else 0

/-- Embeds `UserService.is_module_fully_completed(user_id, module_id)`
(src/business_services/user_service.py): the latest knowledge-check row
must exist and its percentage — recomputed as `score / total_questions
* 100` (0 when the total is 0) — must be at least 80; when the module
has a simulation, a completed simulation row for (user, module) must
also exist. -/
def is_module_fully_completed (db : Database) (user_id module_id : Nat) : Bool :=
  match get_by_id db module_id with
  | none => false
  | some m =>
    match first_by_created_at_desc (knowledge_check_results db user_id module_id) with
    | none => false
    | some knowledge_check_result =>
      if score_percentage knowledge_check_result < 80 then false
      else if m.has_simulation then
        db.simulation_results.any (fun s =>
          s.user_id == user_id && s.module_id == some module_id && s.completed)
      else true

/-- The completion predicate exactly as the claim words it (for the
refinement comparison only): identical to `is_module_fully_completed`
except that the percentage is recomputed from the stored
`correct_answers` count instead of the stored `score`. -/
def claim_module_fully_completed (db : Database) (user_id module_id : Nat) : Bool :=
  match get_by_id db module_id with
  | none => false
  | some m =>
    match first_by_created_at_desc (knowledge_check_results db user_id module_id) with
    | none => false
    | some knowledge_check_result =>
      if correct_answers_percentage knowledge_check_result < 80 then false
      else if m.has_simulation then
        db.simulation_results.any (fun s =>
          s.user_id == user_id && s.module_id == some module_id && s.completed)
      else true

/-- Claim C2 counterexample: the validator recomputes the percentage from
the stored `score` column, not from `correct_answers` as the claim
states.  A knowledge-check row with `score = 4`, `correct_answers = 0`,
`total_questions = 5` makes `is_module_fully_completed` return `true`
(4/5·100 = 80 ≥ 80) while the claim's correct-answer percentage is 0,
so the claim's characterisation is `false` at this database. -/
theorem is_module_fully_completed_counterexample :
    is_module_fully_completed
      ⟨[⟨1, 1, false⟩], [⟨1, "knowledge_check", some 1, 4, 5, 0, false, 0⟩], []⟩ 1 1 = true ∧
    claim_module_fully_completed
      ⟨[⟨1, 1, false⟩], [⟨1, "knowledge_check", some 1, 4, 5, 0, false, 0⟩], []⟩ 1 1 = false := by
  constructor <;>
    · simp only [is_module_fully_completed, claim_module_fully_completed, get_by_id,
        knowledge_check_results, first_by_created_at_desc, score_percentage,
        correct_answers_percentage, List.find?, List.filter, List.foldl]
      norm_num

/-- Claim C2 (amended): `is_module_fully_completed` returns `true` iff the
module exists, the most recent knowledge-check row for (learner, module)
exists, its percentage recomputed from the stored `score` column
(`score/total·100`, `0` on a zero total — not read from the stored
`passed` boolean) is at least 80, and, when the module has
`has_simulation = true`, some simulation row for (learner, module) has
`completed = true`. -/
theorem is_module_fully_completed_iff (db : Database) (user_id module_id : Nat) :
    is_module_fully_completed db user_id module_id = true ↔
      ∃ m, get_by_id db module_id = some m ∧
      ∃ r, first_by_created_at_desc (knowledge_check_results db user_id module_id) = some r ∧
        80 ≤ score_percentage r ∧
        (m.has_simulation = true →
          ∃ s ∈ db.simulation_results,
            s.user_id = user_id ∧ s.module_id = some module_id ∧ s.completed = true) := by
  unfold is_module_fully_completed
  cases hm : get_by_id db module_id with
  | none => simp
  | some m =>
    cases hr : first_by_created_at_desc (knowledge_check_results db user_id module_id) with
    | none => simp
    | some r =>
      simp only [Option.some.injEq, exists_eq_left']
      by_cases hp : score_percentage r < 80
      · rw [if_pos hp]
        exact iff_of_false (by simp) fun h => absurd h.1 (not_le.mpr hp)
      · rw [if_neg hp]
        have h80 := not_lt.mp hp
        cases hsim : m.has_simulation with
        | false =>
          exact iff_of_true rfl ⟨h80, fun hcontra => absurd hcontra (by decide)⟩
        | true =>
          rw [if_pos rfl, List.any_eq_true]
          constructor
          · rintro ⟨s, hs, hcond⟩
            simp only [Bool.and_eq_true, beq_iff_eq] at hcond
            exact ⟨h80, fun _ => ⟨s, hs, hcond.1.1, hcond.1.2, hcond.2⟩⟩
          · rintro ⟨-, hsome⟩
            obtain ⟨s, hsmem, h1, h2, h3⟩ := hsome rfl
            exact ⟨s, hsmem, by simp [h1, h2, h3]⟩

/-- Witness for C2 (amended): a database where learner 1 passed the
module-1 knowledge check at 80% (score 4/5) and completed the module-1
simulation satisfies the validator. -/
theorem is_module_fully_completed_iff_witness :
    is_module_fully_completed
      ⟨[⟨1, 1, true⟩], [⟨1, "knowledge_check", some 1, 4, 5, 4, true, 0⟩],
        [⟨1, some 1, "phishing", 90, true⟩]⟩ 1 1 = true :=
  (is_module_fully_completed_iff
    ⟨[⟨1, 1, true⟩], [⟨1, "knowledge_check", some 1, 4, 5, 4, true, 0⟩],
      [⟨1, some 1, "phishing", 90, true⟩]⟩ 1 1).mpr
    ⟨⟨1, 1, true⟩, by decide,
     ⟨1, "knowledge_check", some 1, 4, 5, 4, true, 0⟩, by decide,
     by norm_num [score_percentage],
     fun _ => ⟨⟨1, some 1, "phishing", 90, true⟩, by decide, rfl, rfl, rfl⟩⟩

/-! ## Progression gate

The access check of the `module` and `assessment` routes (src/app.py):
module 1 is always accessible; module `module_id > 1` is accessible only
when `is_module_fully_completed(current_user.id, module_id - 1)`. -/

def module_accessible (db : Database) (user_id module_id : Nat) : Bool :=
  if module_id == 1 then true
  else is_module_fully_completed db user_id (module_id - 1)

/-- Claim C3: the first module is always accessible, and for every later
module the route grants access iff the previous module is fully
completed — in particular, when the previous module is not fully
completed the module is inaccessible no matter what other modules are
completed. -/
theorem module_accessible_spec (db : Database) (user_id : Nat) :
    module_accessible db user_id 1 = true ∧
    ∀ module_id, 1 < module_id →
      (module_accessible db user_id module_id = true ↔
        is_module_fully_completed db user_id (module_id - 1) = true) ∧
      (is_module_fully_completed db user_id (module_id - 1) = false →
        module_accessible db user_id module_id = false) := by
  refine ⟨rfl, fun module_id hgt => ?_⟩
  have hne : (module_id == 1) = false := by
    simp only [beq_eq_false_iff_ne, ne_eq]
    omega
  unfold module_accessible
  rw [hne]
  simp

/-- Witness for C3: on a database with no attempt records, module 1 is
accessible to learner 1 and module 2 is not. -/
theorem module_accessible_spec_witness :
    module_accessible ⟨[⟨1, 1, false⟩, ⟨2, 2, false⟩], [], []⟩ 1 1 = true ∧
    module_accessible ⟨[⟨1, 1, false⟩, ⟨2, 2, false⟩], [], []⟩ 1 2 = false :=
  ⟨(module_accessible_spec ⟨[⟨1, 1, false⟩, ⟨2, 2, false⟩], [], []⟩ 1).1,
   ((module_accessible_spec ⟨[⟨1, 1, false⟩, ⟨2, 2, false⟩], [], []⟩ 1).2 2 (by decide)).2
     (by decide)⟩

/-! ## Persisting assessment results

`AssessmentResult.percentage_score`, `AssessmentResult.calculate_pass_status`
(src/data_models/progress_models.py) and
`AssessmentService.save_assessment_result`
(src/business_services/assessment_service.py). -/

/-- Embeds `percentage_score`: `(correct_answers / total_questions) * 100`, `0.0`
when `total_questions == 0`. -/
def percentage_score (r : AssessmentResult) : ℚ :=
  if r.total_questions = 0 then 0
  else ((r.correct_answers : ℚ) / (r.total_questions : ℚ)) * 100

/-- Embeds `calculate_pass_status(passing_threshold)`: sets
`passed = percentage_score >= passing_threshold` on the row.  The Python
default for `passing_threshold` is `70.0`. -/
def calculate_pass_status (r : AssessmentResult) (passing_threshold : ℚ) : AssessmentResult :=
  { r with passed := decide (passing_threshold ≤ percentage_score r) }

/-- Values `[e.value for e in AssessmentType]` (src/data_models/progress_models.py). -/
def assessment_type_values : List String :=
  ["baseline", "knowledge_check", "final_assessment", "follow_up"]

/-- Embeds `AssessmentService.save_assessment_result`: validate the assessment
type, build the row, call `calculate_pass_status()` with its default
threshold `70.0`, and save; an invalid type raises (modelled as `none`). -/
def save_assessment_result (user_id : Nat) (assessment_type : String)
    (score total_questions correct_answers : Nat) (module_id : Option Nat)
    (created_at : Nat) : Option AssessmentResult :=
  if assessment_type ∈ assessment_type_values then
    some (calculate_pass_status
      { user_id := user_id
        assessment_type := assessment_type
        module_id := module_id
        score := score
        total_questions := total_questions
        correct_answers := correct_answers
        passed := false
        created_at := created_at } 70)
  else none

/-- A row whose `score` equals its `correct_answers` has equal stored-score
and correct-answer percentages. -/
theorem score_eq_correct_percentage (r : AssessmentResult)
    (h : r.score = r.correct_answers) : score_percentage r = percentage_score r := by
  unfold score_percentage percentage_score
  rcases Nat.eq_zero_or_pos r.total_questions with h0 | h0
  · simp [h0]
  · simp [h, h0, Nat.pos_iff_ne_zero.mp h0]

/-- On a database whose only assessment row is a (learner, module)
knowledge-check row with stored-score percentage below 80, the module
completion validator rejects. -/
theorem single_row_validator_below_80 (m_id user_id : Nat) (r : AssessmentResult)
    (huid : r.user_id = user_id) (hmid : r.module_id = some m_id)
    (hty : r.assessment_type = "knowledge_check")
    (hlt : score_percentage r < 80) :
    is_module_fully_completed ⟨[⟨m_id, m_id, false⟩], [r], []⟩ user_id m_id = false := by
  unfold is_module_fully_completed get_by_id knowledge_check_results first_by_created_at_desc
  simp [List.find?, List.filter, huid, hmid, hty, hlt]

/-- Claim C10: every row persisted through `save_assessment_result` —
knowledge-check rows included — has its `passed` flag recomputed at the
default threshold 70 (`passed ⟺ correct/total·100 ≥ 70`); consequently a
knowledge-check row whose percentage lies in [70, 80) is stored with
`passed = true` even though `is_module_fully_completed` demands 80 and
rejects the very same row (taking `score = correct_answers`, as every
writer in the repository does). -/
theorem save_assessment_result_default_threshold (user_id : Nat)
    (assessment_type : String) (score total_questions correct_answers : Nat)
    (module_id : Option Nat) (created_at : Nat)
    (hty : assessment_type ∈ assessment_type_values) :
    ∃ r, save_assessment_result user_id assessment_type score total_questions
        correct_answers module_id created_at = some r ∧
      (r.passed = true ↔ 70 ≤ percentage_score r) ∧
      r.correct_answers = correct_answers ∧
      r.total_questions = total_questions ∧
      ((70 ≤ percentage_score r ∧ percentage_score r < 80) → r.passed = true) ∧
      (∀ mid, assessment_type = "knowledge_check" → module_id = some mid →
        score = correct_answers → percentage_score r < 80 →
        is_module_fully_completed ⟨[⟨mid, mid, false⟩], [r], []⟩ user_id mid = false) := by
  refine ⟨calculate_pass_status
    { user_id := user_id, assessment_type := assessment_type, module_id := module_id,
      score := score, total_questions := total_questions,
      correct_answers := correct_answers, passed := false, created_at := created_at } 70,
    ?_, ?_, rfl, rfl, ?_, ?_⟩
  · unfold save_assessment_result
    rw [if_pos hty]
  · simp [calculate_pass_status, percentage_score]
  · intro h
    simp [calculate_pass_status, percentage_score]
    exact h.1
  · intro mid hkc hmid hsc hlt
    subst hkc
    subst hmid
    subst hsc
    refine single_row_validator_below_80 mid user_id _ rfl rfl rfl ?_
    rw [score_eq_correct_percentage _ rfl]
    exact hlt

/-- Witness for C10: a knowledge-check submission with 3 of 4 correct
(75%) is stored with `passed = true`, yet the completion validator
rejects that very row. -/
theorem save_assessment_result_default_threshold_witness :
    (save_assessment_result 1 "knowledge_check" 3 4 3 (some 1) 0).map
      (fun r => r.passed) = some true ∧
    (save_assessment_result 1 "knowledge_check" 3 4 3 (some 1) 0).map
      (fun r => is_module_fully_completed ⟨[⟨1, 1, false⟩], [r], []⟩ 1 1) = some false := by
  obtain ⟨r, hsave, hiff, hc, ht, h7080, hval⟩ :=
    save_assessment_result_default_threshold 1 "knowledge_check" 3 4 3 (some 1) 0 (by decide)
  have hpct : percentage_score r = 75 := by
    unfold percentage_score
    rw [hc, ht]
    norm_num
  have hp : r.passed = true := h7080 ⟨by rw [hpct]; norm_num, by rw [hpct]; norm_num⟩
  have hv : is_module_fully_completed ⟨[⟨1, 1, false⟩], [r], []⟩ 1 1 = false :=
    hval 1 rfl rfl rfl (by rw [hpct]; norm_num)
  rw [hsave]
  exact ⟨by simp [hp], by simp [hv]⟩

/-! ## Simulation persistence

`SimulationResult.complete_simulation` (src/data_models/progress_models.py)
and `SimulationService.save_simulation_result`
(src/business_services/simulation_service.py). -/

/-- Values `[e.value for e in SimulationType]`. -/
def simulation_type_values : List String :=
  ["phishing", "pretexting", "baiting", "quid_pro_quo"]

/-- Embeds `SimulationResult.complete_simulation(score)`: update `score` and set
`completed = True` on the row it is called on. -/
def complete_simulation (r : SimulationResult) (score : Nat) : SimulationResult :=
  { r with score := score, completed := true }

/-- Embeds `SimulationService.save_simulation_result`: validate the simulation
type (invalid raises — `none`), construct a **new** `SimulationResult`
row, call `complete_simulation(score)` on it, and save it to the
database; returns the row and the resulting table. -/
def save_simulation_result (simulation_results : List SimulationResult)
    (user_id : Nat) (simulation_type : String) (score : Nat)
    (module_id : Option Nat) : Option (SimulationResult × List SimulationResult) :=
  if simulation_type ∈ simulation_type_values then
    let result : SimulationResult :=
      { user_id := user_id
        module_id := module_id
        simulation_type := simulation_type
        score := score
        completed := false }
    let result := complete_simulation result score
    some (result, simulation_results ++ [result])
  else none

/-- Claim C9 counterexample: a re-attempt does not overwrite the
existing simulation row.  Starting from an empty table, saving a
(learner 1, module 2) phishing result with score 50 and then re-attempting
with score 80 leaves two rows — the first attempt intact and a new
appended row — where the claim predicts a single overwritten row. -/
theorem save_simulation_result_counterexample :
    ((save_simulation_result [] 1 "phishing" 50 (some 2)).bind fun p =>
        save_simulation_result p.2 1 "phishing" 80 (some 2)).map (fun p => p.2) =
      some [⟨1, some 2, "phishing", 50, true⟩, ⟨1, some 2, "phishing", 80, true⟩] ∧
    ((save_simulation_result [] 1 "phishing" 50 (some 2)).bind fun p =>
        save_simulation_result p.2 1 "phishing" 80 (some 2)).map (fun p => p.2.length) =
      some 2 := by
  constructor <;> decide

/-- Claim C9 (amended): every call to `save_simulation_result` creates a
fresh row, sets `score` and `completed = true` on that fresh row via
`complete_simulation`, and appends it, leaving all earlier rows
untouched — so re-attempts accumulate an attempt history exactly like
assessments, one new record per attempt. -/
theorem save_simulation_result_appends (simulation_results : List SimulationResult)
    (user_id : Nat) (simulation_type : String) (score : Nat) (module_id : Option Nat)
    (hty : simulation_type ∈ simulation_type_values) :
    ∃ r, save_simulation_result simulation_results user_id simulation_type score module_id =
        some (r, simulation_results ++ [r]) ∧
      r.completed = true ∧ r.score = score ∧ r.user_id = user_id ∧
      r.module_id = module_id ∧ r.simulation_type = simulation_type ∧
      (simulation_results ++ [r]).length = simulation_results.length + 1 ∧
      (simulation_results ++ [r]).take simulation_results.length = simulation_results := by
  refine ⟨complete_simulation
    { user_id := user_id, module_id := module_id, simulation_type := simulation_type,
      score := score, completed := false } score,
    ?_, rfl, rfl, rfl, rfl, rfl, by simp, by simp⟩
  unfold save_simulation_result
  rw [if_pos hty]

/-- Witness for C9 (amended): saving a first phishing attempt appends a
single completed row. -/
theorem save_simulation_result_appends_witness :
    save_simulation_result [] 1 "phishing" 50 (some 2) =
      some (⟨1, some 2, "phishing", 50, true⟩, [⟨1, some 2, "phishing", 50, true⟩]) := by
  obtain ⟨r, hsave, hcomp, hscore, huid, hmid, hty, -, -⟩ :=
    save_simulation_result_appends [] 1 "phishing" 50 (some 2) (by decide)
  rw [hsave]
  have : r = ⟨1, some 2, "phishing", 50, true⟩ := by
    cases r
    simp only at hcomp hscore huid hmid hty
    subst hcomp hscore huid hmid hty
    rfl
  rw [this]
  rfl

/-! ## Final-assessment submission

`submit_final_assessment` (src/app.py): fetch all final-assessment
questions, count the exact form answers matching `question.correct_answer`
(`request.form.get(f'question_…') == question.correct_answer`, a
case-sensitive comparison against a possibly missing form value), compute
the truncated percentage and compare it against
`FINAL_ASSESSMENT_PASSING_SCORE` (70). -/

def count_correct_form : List Question → List (String × String) → Nat
  | [], _ => 0
  | question :: rest, form =>
    (if form.lookup ("question_" ++ toString question.id) == some question.correct_answer
      then 1 else 0) + count_correct_form rest form

/-- The route: `none` models the `if not questions: redirect` guard;
otherwise the persisted `AssessmentResult` row is returned
(`module_id = None`, `score = correct_answers`, `passed = percentage >= 70`). -/
def submit_final_assessment (user_id : Nat) (questions : List Question)
    (form : List (String × String)) (created_at : Nat) : Option AssessmentResult :=
  if questions.isEmpty then none
  else
    some { user_id := user_id
           assessment_type := "final_assessment"
           module_id := none
           score := count_correct_form questions form
           total_questions := questions.length
           correct_answers := count_correct_form questions form
           passed := decide (FINAL_ASSESSMENT_PASSING_SCORE ≤
             route_percentage (count_correct_form questions form) questions.length)
           created_at := created_at }

/-- Claim C6: the threshold applied when grading a submitted final
assessment is 70 percent — the stored row has `passed = true` iff the
truncated percentage is at least 70, equivalently `70 * total ≤ 100 *
correct` — and it is lower than the knowledge-check threshold of 80. -/
theorem submit_final_assessment_threshold (user_id : Nat)
    (questions : List Question) (form : List (String × String)) (created_at : Nat)
    (hne : questions ≠ []) :
    ∃ r, submit_final_assessment user_id questions form created_at = some r ∧
      (r.passed = true ↔
        70 ≤ route_percentage (count_correct_form questions form) questions.length) ∧
      (r.passed = true ↔
        70 * questions.length ≤ 100 * count_correct_form questions form) ∧
      FINAL_ASSESSMENT_PASSING_SCORE = 70 ∧
      KNOWLEDGE_CHECK_PASSING_SCORE = 80 ∧
      FINAL_ASSESSMENT_PASSING_SCORE < KNOWLEDGE_CHECK_PASSING_SCORE := by
  have hgate : (decide (FINAL_ASSESSMENT_PASSING_SCORE ≤
      route_percentage (count_correct_form questions form) questions.length) = true ↔
        70 * questions.length ≤ 100 * count_correct_form questions form) := by
    have hpos : 0 < questions.length := List.length_pos.mpr hne
    unfold route_percentage FINAL_ASSESSMENT_PASSING_SCORE
    rw [if_pos hpos]
    rw [decide_eq_true_eq]
    rw [Nat.le_div_iff_mul_le hpos]
  refine ⟨⟨user_id, "final_assessment", none, count_correct_form questions form,
      questions.length, count_correct_form questions form,
      decide (FINAL_ASSESSMENT_PASSING_SCORE ≤
        route_percentage (count_correct_form questions form) questions.length),
      created_at⟩, ?_, ?_, hgate, rfl, rfl, by decide⟩
  · unfold submit_final_assessment
    rw [if_neg (by simpa using hne)]
  · rw [show (⟨user_id, "final_assessment", none, count_correct_form questions form,
      questions.length, count_correct_form questions form,
      decide (FINAL_ASSESSMENT_PASSING_SCORE ≤
        route_percentage (count_correct_form questions form) questions.length),
      created_at⟩ : AssessmentResult).passed =
        decide (FINAL_ASSESSMENT_PASSING_SCORE ≤
          route_percentage (count_correct_form questions form) questions.length) from rfl]
    rw [decide_eq_true_eq]
    exact Iff.rfl

/-- Witness for C6: a single-question final assessment answered correctly
(100%) is stored passed; answered wrongly (0%) it is not. -/
theorem submit_final_assessment_threshold_witness :
    (submit_final_assessment 1 [⟨1, "q1", "a", "e1"⟩] [("question_1", "a")] 0).map
      (fun r => r.passed) = some true ∧
    (submit_final_assessment 1 [⟨1, "q1", "a", "e1"⟩] [("question_1", "b")] 0).map
      (fun r => r.passed) = some false := by
  constructor
  · obtain ⟨r, hsave, hiff, -, -, -, -⟩ := submit_final_assessment_threshold 1
      [⟨1, "q1", "a", "e1"⟩] [("question_1", "a")] 0 (by decide)
    have hp : r.passed = true := hiff.mpr (by decide)
    rw [hsave]
    simp [hp]
  · obtain ⟨r, hsave, hiff, -, -, -, -⟩ := submit_final_assessment_threshold 1
      [⟨1, "q1", "a", "e1"⟩] [("question_1", "b")] 0 (by decide)
    have hp : r.passed = false := by
      cases hp2 : r.passed
      · rfl
      · exact absurd (hiff.mp hp2) (by decide)
    rw [hsave]
    simp [hp]

end SEAP
